import Mathlib

/-!
Shallow embedding of the DSUwU DSU server (protocols/dsu_packet.py,
protocols/dsu.py, libraries/masks.py, libraries/net_config.py,
libraries/inputs.py, viewer.py) and proofs about it.

Bytes are modelled as `List Nat` (each element intended < 256); little-endian
integer fields are encoded/decoded explicitly.  Timestamps (Python
`time.time()` floats) are modelled as rationals.  IEEE-754 float payload
sections are modelled at the value level: the six `f32` values passed to
`struct.pack('<6f', ...)` are kept as a `List ℚ` next to the byte part of the
payload, since float encoding is injective on the values handed to `pack`.
-/

namespace DSUwU

abbrev Bytes := List Nat

/-- Little-endian 16-bit encoding, as produced by `struct.pack('<H', n)`. -/
def u16le (n : Nat) : Bytes := [n % 256, n / 2 ^ 8 % 256]

/-- Little-endian 32-bit encoding, as produced by `struct.pack('<I', n)`. -/
def u32le (n : Nat) : Bytes :=
  [n % 256, n / 2 ^ 8 % 256, n / 2 ^ 16 % 256, n / 2 ^ 24 % 256]

/-- Little-endian 64-bit encoding, as produced by `struct.pack('<Q', n)`. -/
def u64le (n : Nat) : Bytes :=
  [n % 256, n / 2 ^ 8 % 256, n / 2 ^ 16 % 256, n / 2 ^ 24 % 256,
   n / 2 ^ 32 % 256, n / 2 ^ 40 % 256, n / 2 ^ 48 % 256, n / 2 ^ 56 % 256]

/-- Little-endian 16-bit decoding, as in `struct.unpack('<H', b)`. -/
def u16dec (b : Bytes) : Nat := b.getD 0 0 + 2 ^ 8 * b.getD 1 0

/-- Little-endian 32-bit decoding, as in `struct.unpack('<I', b)`. -/
def u32dec (b : Bytes) : Nat :=
  b.getD 0 0 + 2 ^ 8 * b.getD 1 0 + 2 ^ 16 * b.getD 2 0 + 2 ^ 24 * b.getD 3 0

/-- One shift-and-conditionally-xor round of the reflected CRC-32 (IEEE)
computation used by `zlib.crc32`. -/
def crc32_round (c : Nat) : Nat :=
  if c % 2 = 1 then (c / 2) ^^^ 0xEDB88320 else c / 2

/-- Fold one data byte into the running CRC-32 state. -/
def crc32_update (c b : Nat) : Nat := crc32_round^[8] (c ^^^ b % 256)

/-- `zlib.crc32(data)`: reflected CRC-32 with initial and final xor value
`0xFFFFFFFF` and polynomial `0xEDB88320`. -/
def crc32 (data : Bytes) : Nat :=
  (data.foldl crc32_update 0xFFFFFFFF) ^^^ 0xFFFFFFFF

/-- `crc_packet` from protocols/dsu_packet.py: CRC-32 over the 16-byte header
with its CRC field (bytes 8..12) zeroed, concatenated with the message. -/
def crc_packet (header payload : Bytes) : Nat :=
  crc32 (header.take 8 ++ [0, 0, 0, 0] ++ header.drop 12 ++ payload) &&& 0xFFFFFFFF

/-- Server magic `b"DSUS"`. -/
def magicDSUS : Bytes := [0x44, 0x53, 0x55, 0x53]

/-- Client magic `b"DSUC"`. -/
def magicDSUC : Bytes := [0x44, 0x53, 0x55, 0x43]

def PROTOCOL_VERSION : Nat := 1001

def DSU_version_request : Nat := 0x100000
def DSU_version_response : Nat := 0x100000
def DSU_list_ports : Nat := 0x100001
def DSU_port_info : Nat := 0x100001
def DSU_button_request : Nat := 0x100002
def DSU_button_response : Nat := 0x100002
def DSU_motor_request : Nat := 0x110001
def DSU_motor_response : Nat := 0x110001
def motor_command : Nat := 0x110002

/-- `struct.pack('<4sHHII', magic, version, length, crc, id)`: the 16-byte
DSU header layout. -/
def pack_4sHHII (magic : Bytes) (version length crc id : Nat) : Bytes :=
  magic ++ u16le version ++ u16le length ++ u32le crc ++ u32le id

/-- `build_header` from protocols/dsu_packet.py: build the 16-byte `DSUS`
header with CRC zeroed, compute the CRC over header plus message (msg_type
followed by the payload), rewrite the header with the CRC and append the
message.  `protocol_version = none` models the Python default `None`, which
falls back to `PROTOCOL_VERSION`. -/
def build_header (server_id msg_type : Nat) (payload : Bytes)
    (protocol_version : Option Nat) : Bytes :=
  let version := protocol_version.getD PROTOCOL_VERSION
  let msg := u32le msg_type ++ payload
  let header := pack_4sHHII magicDSUS version msg.length 0 server_id
  let crc := crc_packet header msg
  pack_4sHHII magicDSUS version msg.length crc server_id ++ msg

/-- `build_client_packet` from viewer.py: the client-side packet builder
(magic `DSUC`, id 0), identical in structure to `build_header`. -/
def build_client_packet (msg_type : Nat) (payload : Bytes)
    (protocol_version : Option Nat) : Bytes :=
  let version := protocol_version.getD PROTOCOL_VERSION
  let msg := u32le msg_type ++ payload
  let header := pack_4sHHII magicDSUC version msg.length 0 0
  let crc := crc_packet header msg
  pack_4sHHII magicDSUC version msg.length crc 0 ++ msg

lemma crc_packet_lt (header payload : Bytes) : crc_packet header payload < 2 ^ 32 := by
  have h : (0xFFFFFFFF : Nat) < 2 ^ 32 := by norm_num
  exact Nat.and_lt_two_pow _ h

lemma u32dec_u32le (n : Nat) (h : n < 2 ^ 32) : u32dec (u32le n) = n := by
  simp [u32dec, u32le]
  omega

lemma pack_4sHHII_DSUS_length (v l c i : Nat) :
    (pack_4sHHII magicDSUS v l c i).length = 16 := by
  simp [pack_4sHHII, magicDSUS, u16le, u32le]

/-- The CRC computed by `crc_packet` ignores header bytes 8..12, i.e. the CRC
field of the header. -/
lemma crc_packet_pack_irrel (v l c c' i : Nat) (msg : Bytes) :
    crc_packet (pack_4sHHII magicDSUS v l c i) msg =
      crc_packet (pack_4sHHII magicDSUS v l c' i) msg := by
  simp only [crc_packet, pack_4sHHII, magicDSUS, u16le, u32le, List.cons_append,
    List.nil_append, List.take_succ_cons, List.take_zero, List.drop_succ_cons,
    List.drop_zero]

lemma pack_crc_field (v l c i : Nat) (msg : Bytes) :
    ((pack_4sHHII magicDSUS v l c i ++ msg).drop 8).take 4 = u32le c := by
  simp only [pack_4sHHII, magicDSUS, u16le, u32le, List.cons_append, List.nil_append,
    List.drop_succ_cons, List.drop_zero, List.take_succ_cons, List.take_zero,
    List.take_append_of_le_length, List.take]

/-- C2: every packet the server encodes with `build_header` carries in its CRC
field (header bytes 8..12) exactly the CRC the receiver recomputes over the
header with the CRC field zeroed concatenated with the message, so every
server-encoded packet passes the receiver's CRC check. -/
theorem c2_build_header_crc_roundtrip (server_id msg_type : Nat) (payload : Bytes)
    (protocol_version : Option Nat) :
    u32dec (((build_header server_id msg_type payload protocol_version).drop 8).take 4) =
      crc_packet ((build_header server_id msg_type payload protocol_version).take 16)
        ((build_header server_id msg_type payload protocol_version).drop 16) := by
  dsimp only [build_header]
  rw [List.take_left' (pack_4sHHII_DSUS_length _ _ _ _),
    List.drop_left' (pack_4sHHII_DSUS_length _ _ _ _), pack_crc_field,
    u32dec_u32le _ (crc_packet_lt _ _)]
  exact crc_packet_pack_irrel _ _ _ _ _ _

/-! ## libraries/masks.py and libraries/net_config.py configuration -/

/-- `net_config.stick_deadzone`: tolerance for analog stick drift when
detecting connection status. -/
def stick_deadzone : Nat := 3

/-- `net_config.DSU_timeout` (seconds).  Timestamps are modelled as integer
quantities: the code only ever adds, subtracts and compares them, so any
ordered additive model is faithful, and integers keep concrete reconciliation
passes kernel-evaluable. -/
def DSU_timeout : ℤ := 5

/-- `net_config.motor_count`: rumble motors per controller. -/
def net_motor_count : Nat := 2

/-- `button_mask_1` from libraries/masks.py. -/
def button_mask_1 (share l3 r3 options up right down left : Bool) : Nat :=
  (cond share 0x01 0) ||| (cond l3 0x02 0) ||| (cond r3 0x04 0) |||
  (cond options 0x08 0) ||| (cond up 0x10 0) ||| (cond right 0x20 0) |||
  (cond down 0x40 0) ||| (cond left 0x80 0)

/-- `button_mask_2` from libraries/masks.py. -/
def button_mask_2 (l2 r2 l1 r1 triangle circle cross square : Bool) : Nat :=
  (cond l2 0x01 0) ||| (cond r2 0x02 0) ||| (cond l1 0x04 0) |||
  (cond r1 0x08 0) ||| (cond triangle 0x10 0) ||| (cond circle 0x20 0) |||
  (cond cross 0x40 0) ||| (cond square 0x80 0)

/-- `touchpad_input` from libraries/masks.py: a `(active, id, x, y)` tuple
with the id masked to 8 bits and the coordinates to 16 bits. -/
def touchpad_input (active : Bool) (touch_id x y : Nat) : Nat × Nat × Nat × Nat :=
  (cond active 1 0, touch_id &&& 0xFF, x &&& 0xFFFF, y &&& 0xFFFF)

/-- The all-defaults call `touchpad_input()`. -/
def touchpad_input_default : Nat × Nat × Nat × Nat := touchpad_input false 0 0 0

/-- `ControllerState` from libraries/masks.py, with the same field defaults.
Stick and trigger values are Python ints (here `Nat`), timestamps rationals,
and motion values rationals standing for the float values. -/
structure ControllerState where
  connected : Bool := false
  packet_num : Nat := 0
  buttons1 : Nat := button_mask_1 false false false false false false false false
  buttons2 : Nat := button_mask_2 false false false false false false false false
  home : Bool := false
  touch_button : Bool := false
  L_stick : Nat × Nat := (128, 128)
  R_stick : Nat × Nat := (128, 128)
  dpad_analog : Nat × Nat × Nat × Nat := (0, 0, 0, 0)
  face_analog : Nat × Nat × Nat × Nat := (0, 0, 0, 0)
  analog_R1 : Nat := 0
  analog_L1 : Nat := 0
  analog_R2 : Nat := 0
  analog_L2 : Nat := 0
  touchpad_input1 : Option (Nat × Nat × Nat × Nat) := none
  touchpad_input2 : Option (Nat × Nat × Nat × Nat) := none
  motion_timestamp : Nat := 0
  accelerometer : ℚ × ℚ × ℚ := (0, 0, 0)
  gyroscope : ℚ × ℚ × ℚ := (0, 0, 0)
  connection_type : Int := 2
  battery : Nat := 5
  idle : Bool := false
  motor_count : Nat := net_motor_count
  motors : List Nat := List.replicate net_motor_count 0
  motor_timestamps : List ℤ := List.replicate net_motor_count 0
deriving DecidableEq

/-- `ControllerState.is_idle` from libraries/masks.py: true iff no buttons,
no home/touch, both sticks within `dz` of the neutral 128 on both axes, dpad
and face analogs zero, triggers zero, and both touchpads inactive or absent. -/
def ControllerState.is_idle (s : ControllerState) (dz : Nat) : Bool :=
  let no_buttons :=
    s.buttons1 == button_mask_1 false false false false false false false false &&
    s.buttons2 == button_mask_2 false false false false false false false false
  let no_misc := !(s.home || s.touch_button)
  let sticks_centered :=
    decide (((s.L_stick.1 : Int) - 128).natAbs ≤ dz) &&
    decide (((s.L_stick.2 : Int) - 128).natAbs ≤ dz) &&
    decide (((s.R_stick.1 : Int) - 128).natAbs ≤ dz) &&
    decide (((s.R_stick.2 : Int) - 128).natAbs ≤ dz)
  let dpads_zero := s.dpad_analog == (0, 0, 0, 0) && s.face_analog == (0, 0, 0, 0)
  let triggers_zero :=
    s.analog_R1 == 0 && s.analog_L1 == 0 && s.analog_R2 == 0 && s.analog_L2 == 0
  let touches_inactive :=
    (match s.touchpad_input1 with | none => true | some t => t.1 == 0) &&
    (match s.touchpad_input2 with | none => true | some t => t.1 == 0)
  no_buttons && no_misc && sticks_centered && dpads_zero && triggers_zero &&
    touches_inactive

/-- `ControllerState.update_connection` from libraries/masks.py:
`connected = idle or not is_idle(dz)`. -/
def ControllerState.update_connection (s : ControllerState) (dz : Nat) : ControllerState :=
  { s with connected := s.idle || !(s.is_idle dz) }

/-- C6: a snapshot with both sticks within `stick_deadzone` of 128 on both
axes, no buttons1/buttons2 bits, home and touch false, zero dpad/face analogs,
zero triggers, and inactive-or-absent touchpads is idle, and
`update_connection` then sets `connected` to the `idle` flag. -/
theorem c6_idle_connection (s : ControllerState)
    (hlx : ((s.L_stick.1 : Int) - 128).natAbs ≤ stick_deadzone)
    (hly : ((s.L_stick.2 : Int) - 128).natAbs ≤ stick_deadzone)
    (hrx : ((s.R_stick.1 : Int) - 128).natAbs ≤ stick_deadzone)
    (hry : ((s.R_stick.2 : Int) - 128).natAbs ≤ stick_deadzone)
    (hb1 : s.buttons1 = 0) (hb2 : s.buttons2 = 0)
    (hh : s.home = false) (ht : s.touch_button = false)
    (hd : s.dpad_analog = (0, 0, 0, 0)) (hf : s.face_analog = (0, 0, 0, 0))
    (h1 : s.analog_R1 = 0) (h2 : s.analog_L1 = 0)
    (h3 : s.analog_R2 = 0) (h4 : s.analog_L2 = 0)
    (ht1 : ∀ t, s.touchpad_input1 = some t → t.1 = 0)
    (ht2 : ∀ t, s.touchpad_input2 = some t → t.1 = 0) :
    s.is_idle stick_deadzone = true ∧
      (s.update_connection stick_deadzone).connected = s.idle := by
  have hidle : s.is_idle stick_deadzone = true := by
    unfold ControllerState.is_idle
    rw [hb1, hb2, hh, ht, hd, hf, h1, h2, h3, h4]
    cases htp1 : s.touchpad_input1 with
    | none =>
      cases htp2 : s.touchpad_input2 with
      | none => simp_all [button_mask_1, button_mask_2]
      | some t2 => have := ht2 t2 htp2; simp_all [button_mask_1, button_mask_2]
    | some t1 =>
      have := ht1 t1 htp1
      cases htp2 : s.touchpad_input2 with
      | none => simp_all [button_mask_1, button_mask_2]
      | some t2 => have := ht2 t2 htp2; simp_all [button_mask_1, button_mask_2]
  refine ⟨hidle, ?_⟩
  simp [ControllerState.update_connection, hidle]

/-- Witness for C6 at the default `ControllerState` (all fields at their
constructor defaults, `idle = false`). -/
theorem c6_idle_connection_witness :
    ({} : ControllerState).is_idle stick_deadzone = true ∧
      (({} : ControllerState).update_connection stick_deadzone).connected =
        ({} : ControllerState).idle :=
  c6_idle_connection {} (by decide) (by decide) (by decide) (by decide) (by decide)
    (by decide) rfl rfl rfl rfl rfl rfl rfl rfl
    (fun t ht => by simp at ht) (fun t ht => by simp at ht)

/-! ## send_input message content (protocols/dsu_packet.py) -/

/-- The keyword arguments of `send_input` in protocols/dsu_packet.py with the
same defaults.  `connection_type` is a byte here because `struct.pack('B', ...)`
requires 0..255 (the caller guards `connection_type != -1`). -/
structure SendInputArgs where
  slot : Nat
  connected : Bool := true
  packet_num : Nat := 0
  buttons1 : Nat := button_mask_1 false false false false false false false false
  buttons2 : Nat := button_mask_2 false false false false false false false false
  home : Bool := false
  touch_button : Bool := false
  L_stick : Nat × Nat := (128, 128)
  R_stick : Nat × Nat := (128, 128)
  dpad_analog : Nat × Nat × Nat × Nat := (0, 0, 0, 0)
  face_analog : Nat × Nat × Nat × Nat := (0, 0, 0, 0)
  analog_R1 : Nat := 0
  analog_L1 : Nat := 0
  analog_R2 : Nat := 0
  analog_L2 : Nat := 0
  touchpad_input1 : Option (Nat × Nat × Nat × Nat) := none
  touchpad_input2 : Option (Nat × Nat × Nat × Nat) := none
  motion_timestamp : Nat := 0
  accelerometer : ℚ × ℚ × ℚ := (0, 0, 0)
  gyroscope : ℚ × ℚ × ℚ := (0, 0, 0)
  connection_type : Nat := 2
  battery : Nat := 5
deriving DecidableEq

/-- The button-response message content built by `send_input` in
protocols/dsu_packet.py: the byte part of the payload (everything before the
`'<6f'` motion floats) plus the six float values passed to `struct.pack`, in
order.  `now_us` is `int(time.time() * 1000000)`, used when
`motion_timestamp` is 0 (Python `motion_timestamp or ...`); a touchpad of
`None` falls back to `touchpad_input()`.  The dpad tuple is unpacked as
`dpad_up, dpad_right, dpad_down, dpad_left = dpad_analog` and re-emitted in
the order left, down, right, up. -/
def send_input_message (mac : Bytes) (now_us : Nat) (a : SendInputArgs) :
    Bytes × List ℚ :=
  let motion_ts := if a.motion_timestamp = 0 then now_us else a.motion_timestamp
  let touch1 := a.touchpad_input1.getD touchpad_input_default
  let touch2 := a.touchpad_input2.getD touchpad_input_default
  let dpad_up := a.dpad_analog.1
  let dpad_right := a.dpad_analog.2.1
  let dpad_down := a.dpad_analog.2.2.1
  let dpad_left := a.dpad_analog.2.2.2
  ([a.slot, 2, 2, a.connection_type] ++ mac ++ [a.battery, cond a.connected 1 0]
    ++ u32le a.packet_num
    ++ [a.buttons1, a.buttons2, cond a.home 1 0, cond a.touch_button 1 0,
        a.L_stick.1, 255 - a.L_stick.2, a.R_stick.1, 255 - a.R_stick.2,
        dpad_left, dpad_down, dpad_right, dpad_up,
        a.face_analog.1, a.face_analog.2.1, a.face_analog.2.2.1, a.face_analog.2.2.2,
        a.analog_R1, a.analog_L1, a.analog_R2, a.analog_L2]
    ++ [touch1.1, touch1.2.1] ++ u16le touch1.2.2.1 ++ u16le touch1.2.2.2
    ++ [touch2.1, touch2.2.1] ++ u16le touch2.2.2.1 ++ u16le touch2.2.2.2
    ++ u64le motion_ts,
   [a.accelerometer.1, a.accelerometer.2.1, -a.accelerometer.2.2,
    a.gyroscope.1, a.gyroscope.2.1, a.gyroscope.2.2])

/-- Modelled from the spec, §6.3 button bit tables: `buttons1` is the sum of
share 0x01, l3 0x02, r3 0x04, options 0x08, up 0x10, right 0x20, down 0x40,
left 0x80 for the pressed buttons. -/
def spec_buttons1 (share l3 r3 options up right down left : Bool) : Nat :=
  (cond share 0x01 0) + (cond l3 0x02 0) + (cond r3 0x04 0) + (cond options 0x08 0) +
  (cond up 0x10 0) + (cond right 0x20 0) + (cond down 0x40 0) + (cond left 0x80 0)

/-- Modelled from the spec, §6.3 button bit tables: `buttons2` is the sum of
l2 0x01, r2 0x02, l1 0x04, r1 0x08, triangle 0x10, circle 0x20, cross 0x40,
square 0x80 for the pressed buttons. -/
def spec_buttons2 (l2 r2 l1 r1 triangle circle cross square : Bool) : Nat :=
  (cond l2 0x01 0) + (cond r2 0x02 0) + (cond l1 0x04 0) + (cond r1 0x08 0) +
  (cond triangle 0x10 0) + (cond circle 0x20 0) + (cond cross 0x40 0) +
  (cond square 0x80 0)

/-- Modelled from the spec, §6.3 "Button-response payload" rows 1-10: slot
header, packet counter, buttons, sticks with inverted Y (`255 - y`), dpad in
the order left, down, right, up, face analogs as stored, triggers R1 L1 R2 L2,
two touches, the motion timestamp, and the six floats with the accelerometer
Z negated. -/
def spec_button_response (slot connection_type : Nat) (mac : Bytes)
    (battery : Nat) (connected : Bool) (packet_num buttons1 buttons2 : Nat)
    (home touch_button : Bool) (ls_x ls_y rs_x rs_y : Nat)
    (dpad_left dpad_down dpad_right dpad_up : Nat) (face : Nat × Nat × Nat × Nat)
    (analog_R1 analog_L1 analog_R2 analog_L2 : Nat)
    (touch1 touch2 : Nat × Nat × Nat × Nat) (motion_timestamp_us : Nat)
    (accel gyro : ℚ × ℚ × ℚ) : Bytes × List ℚ :=
  ([slot, 2, 2, connection_type] ++ mac ++ [battery, cond connected 1 0]
    ++ u32le packet_num
    ++ [buttons1, buttons2, cond home 1 0, cond touch_button 1 0]
    ++ [ls_x, 255 - ls_y, rs_x, 255 - rs_y]
    ++ [dpad_left, dpad_down, dpad_right, dpad_up]
    ++ [face.1, face.2.1, face.2.2.1, face.2.2.2]
    ++ [analog_R1, analog_L1, analog_R2, analog_L2]
    ++ [touch1.1, touch1.2.1] ++ u16le touch1.2.2.1 ++ u16le touch1.2.2.2
    ++ [touch2.1, touch2.2.1] ++ u16le touch2.2.2.1 ++ u16le touch2.2.2.2
    ++ u64le motion_timestamp_us,
   [accel.1, accel.2.1, -accel.2.2, gyro.1, gyro.2.1, gyro.2.2])

set_option maxHeartbeats 2000000 in
/-- C1: the message `send_input` emits is bit-exact per the spec: the packed
button masks agree with the spec's bit tables on every combination (in
particular share|options|up is 0x19 and triangle|cross is 0x50), the whole
payload refines the spec layout — stick Y axes transmitted as `255 - y`, dpad
bytes in the order left, down, right, up, accelerometer Z negated — and a
stick at (200, 60) goes out as the bytes 0xC8, 195. -/
theorem c1_send_input_bit_exact :
    (∀ b1 b2 b3 b4 b5 b6 b7 b8 : Bool,
        button_mask_1 b1 b2 b3 b4 b5 b6 b7 b8 = spec_buttons1 b1 b2 b3 b4 b5 b6 b7 b8) ∧
    (∀ b1 b2 b3 b4 b5 b6 b7 b8 : Bool,
        button_mask_2 b1 b2 b3 b4 b5 b6 b7 b8 = spec_buttons2 b1 b2 b3 b4 b5 b6 b7 b8) ∧
    button_mask_1 true false false true true false false false = 0x19 ∧
    button_mask_2 false false false false true false true false = 0x50 ∧
    (∀ (mac : Bytes) (now_us : Nat) (a : SendInputArgs),
        send_input_message mac now_us a =
          spec_button_response a.slot a.connection_type mac a.battery a.connected
            a.packet_num a.buttons1 a.buttons2 a.home a.touch_button
            a.L_stick.1 a.L_stick.2 a.R_stick.1 a.R_stick.2
            a.dpad_analog.2.2.2 a.dpad_analog.2.2.1 a.dpad_analog.2.1 a.dpad_analog.1
            a.face_analog a.analog_R1 a.analog_L1 a.analog_R2 a.analog_L2
            (a.touchpad_input1.getD touchpad_input_default)
            (a.touchpad_input2.getD touchpad_input_default)
            (if a.motion_timestamp = 0 then now_us else a.motion_timestamp)
            a.accelerometer a.gyroscope) ∧
    (((send_input_message (List.replicate 6 0) 0
        { slot := 0, L_stick := (200, 60) }).1.drop 20).take 4 = [0xC8, 195, 128, 127]) := by
  refine ⟨by decide, by decide, by decide, by decide, ?_, by decide⟩
  intro mac now_us a
  simp [send_input_message, spec_button_response]

/-! ## handle_version_request (protocols/dsu_packet.py) -/

/-- The version-response packet built by `handle_version_request` in
protocols/dsu_packet.py: `payload = struct.pack('<I H', DSU_version_response,
PROTOCOL_VERSION)` and then `build_header(DSU_version_response, payload[4:],
protocol_version=protocol_version)`, so only the 2-byte version survives from
`payload` and no reserved u16 is appended.  Note the dispatch site
protocols/dsu.py line 85 calls `handle_version_request(addr)` without the
required `protocol_version` argument, which raises `TypeError` before this
packet is ever built. -/
def version_response_packet (server_id protocol_version : Nat) : Bytes :=
  let payload := u32le DSU_version_response ++ u16le PROTOCOL_VERSION
  build_header server_id DSU_version_response (payload.drop 4) (some protocol_version)

/-- C7 (code evaluated at the failing input): the message part (msg_type plus
payload) of the version response is 6 bytes — `u32 msg_type` plus
`u16 protocol_version` with no `u16 reserved` — where the claim and the
repository's own test (tests/test_dsu_packet.py, `msg_len == 8`) require 8. -/
theorem c7_version_response_message_length (server_id protocol_version : Nat) :
    ((version_response_packet server_id protocol_version).drop 16).length = 6 := by
  dsimp only [version_response_packet, build_header]
  rw [List.drop_left' (pack_4sHHII_DSUS_length _ _ _ _)]
  rfl

/-! ## Pulse helpers (libraries/inputs.py) -/

/-- `frame_delay = 1 / 60.0`. -/
def frame_delay : ℚ := 1 / 60

/-- The button keyword arguments accepted by `pulse_button` (groups 1 and 2
plus `home` and `touch`), all defaulting to false. -/
structure ButtonKwargs where
  share : Bool := false
  l3 : Bool := false
  r3 : Bool := false
  options : Bool := false
  up : Bool := false
  right : Bool := false
  down : Bool := false
  left : Bool := false
  l2 : Bool := false
  r2 : Bool := false
  l1 : Bool := false
  r1 : Bool := false
  triangle : Bool := false
  circle : Bool := false
  cross : Bool := false
  square : Bool := false
  home : Bool := false
  touch : Bool := false
deriving DecidableEq

/-- The immediate effect of `pulse_button` in libraries/inputs.py: the slot's
`buttons1`/`buttons2` are assigned the masks of the named buttons (overwriting
any previously set bits) and `home`/`touch_button` are assigned the given
values. -/
def pulse_button_press (state : ControllerState) (k : ButtonKwargs) : ControllerState :=
  { state with
    buttons1 := button_mask_1 k.share k.l3 k.r3 k.options k.up k.right k.down k.left
    buttons2 := button_mask_2 k.l2 k.r2 k.l1 k.r1 k.triangle k.circle k.cross k.square
    home := k.home
    touch_button := k.touch }

/-- The `_release` closure scheduled by `pulse_button`: `buttons1`/`buttons2`
are reset to the all-false masks (clearing every bit, whoever set it), and
`home`/`touch_button` are cleared only if this call set them. -/
def pulse_button_release (state : ControllerState) (k : ButtonKwargs) : ControllerState :=
  { state with
    buttons1 := button_mask_1 false false false false false false false false
    buttons2 := button_mask_2 false false false false false false false false
    home := if k.home then false else state.home
    touch_button := if k.touch then false else state.touch_button }

/-- `pulse_button(frame, controller_states, slot, **kwargs)`: presses the
named buttons; with `frame <= 0` the release body runs immediately and
nothing is scheduled, otherwise the release is scheduled with delay
`frame * frame_delay`.  Returns the new slot state and the scheduled delay. -/
def pulse_button (frame : ℤ) (state : ControllerState) (k : ButtonKwargs) :
    ControllerState × Option ℚ :=
  let pressed := pulse_button_press state k
  if frame ≤ 0 then (pulse_button_release pressed k, none)
  else (pressed, some ((frame : ℚ) * frame_delay))

/-- `_ReleaseScheduler.schedule(delay, callback)`:
`run_at = time.time() + max(delay, 0.0)`. -/
def schedule_run_at (now delay : ℚ) : ℚ := now + max delay 0

/-- C8 counterexample: `pulse_button`'s release does not leave unrelated
button bits unchanged.  A cross pulse is pressed, another producer then sets
the circle bit (buttons2 = 0x60), and the scheduled release zeroes the whole
mask: buttons2 ends at 0x00, not at the claim's predicted 0x20 (circle kept,
only the cross bit this call set cleared). -/
theorem c8_release_not_exact :
    ({ pulse_button_press {} { cross := true } with buttons2 := 0x60 } :
        ControllerState).buttons2 = 0x60 ∧
    (pulse_button_release
        { pulse_button_press {} { cross := true } with buttons2 := 0x60 }
        { cross := true }).buttons2 = 0 ∧
    (pulse_button_release
        { pulse_button_press {} { cross := true } with buttons2 := 0x60 }
        { cross := true }).buttons2 ≠ 0x20 := by
  refine ⟨rfl, rfl, by decide⟩

/-- C8 (amended): `pulse_button(frames, slot, buttons)` with `frames > 0`
assigns the named buttons' masks (overwriting other bits) and `home`/`touch`
immediately, and schedules a release after exactly `frames * (1/60)` seconds;
the release resets `buttons1`/`buttons2` to zero — clearing all button bits,
not only the ones this call set — and clears `home`/`touch_button` only if
this call set them. -/
theorem c8_pulse_button_overwrites (frame : ℤ) (state : ControllerState)
    (k : ButtonKwargs) (h : 0 < frame) :
    pulse_button frame state k =
      (pulse_button_press state k, some ((frame : ℚ) * frame_delay)) ∧
    (∀ now : ℚ,
        schedule_run_at now ((frame : ℚ) * frame_delay) = now + (frame : ℚ) * (1 / 60)) ∧
    (pulse_button_press state k).buttons1 =
      button_mask_1 k.share k.l3 k.r3 k.options k.up k.right k.down k.left ∧
    (pulse_button_press state k).buttons2 =
      button_mask_2 k.l2 k.r2 k.l1 k.r1 k.triangle k.circle k.cross k.square ∧
    (∀ s : ControllerState,
        (pulse_button_release s k).buttons1 = 0 ∧
        (pulse_button_release s k).buttons2 = 0 ∧
        (pulse_button_release s k).home = (if k.home then false else s.home) ∧
        (pulse_button_release s k).touch_button =
          (if k.touch then false else s.touch_button)) := by
  have hfr : ¬ frame ≤ 0 := not_le.mpr h
  have hq : (0 : ℚ) ≤ (frame : ℚ) * frame_delay := by
    have h1 : (0 : ℚ) ≤ (frame : ℚ) := by exact_mod_cast h.le
    have h2 : (0 : ℚ) ≤ frame_delay := by norm_num [frame_delay]
    exact mul_nonneg h1 h2
  refine ⟨by simp [pulse_button, hfr], ?_, rfl, rfl, fun s => ⟨rfl, rfl, rfl, rfl⟩⟩
  intro now
  have hmax : max ((frame : ℚ) * frame_delay) 0 = (frame : ℚ) * frame_delay :=
    max_eq_left hq
  simp [schedule_run_at, hmax, frame_delay]
  exact h.le

/-- Witness for C8 at `frames = 3` and a circle pulse. -/
theorem c8_pulse_button_overwrites_witness :
    (0 : ℤ) < 3 ∧
      pulse_button 3 {} { circle := true } =
        (pulse_button_press {} { circle := true }, some ((3 : ℚ) * frame_delay)) :=
  ⟨by decide, (c8_pulse_button_overwrites 3 {} { circle := true } (by decide)).1⟩

/-! ## Slot MAC table (libraries/net_config.py) -/

/-- `soft_slot_limit`: DSU slots use an unsigned 8-bit value, capping the
protocol at 256 reportable controllers. -/
def soft_slot_limit : Nat := 256

/-- `n.to_bytes(w, 'big')`: big-endian fixed-width byte encoding. -/
def nat_to_bytes_be : Nat → Nat → Bytes
  | 0, _ => []
  | w + 1, n => nat_to_bytes_be w (n / 256) ++ [n % 256]

/-- `_generate_mac(idx)` from libraries/net_config.py:
`(idx % soft_slot_limit).to_bytes(6, 'big')` (a warning is printed once for
`idx >= soft_slot_limit`). -/
def generate_mac (idx : Nat) : Bytes := nat_to_bytes_be 6 (idx % soft_slot_limit)

abbrev MacTable := List (Nat × Option Bytes)

/-- Python `d[k] = v` on an (insertion-ordered) dict: replace in place or
append. -/
def alist_set {κ α : Type} [DecidableEq κ] : List (κ × α) → κ → α → List (κ × α)
  | [], k, v => [(k, v)]
  | (k', v') :: t, k, v =>
      if k' = k then (k, v) :: t else (k', v') :: alist_set t k v

/-- The default `slot_mac_addresses` table: manual example addresses for
slots 1..4. -/
def slot_mac_default : MacTable :=
  [(1, some [0xAA, 0xBB, 0xCC, 0xDD, 0xEE, 0x01]),
   (2, some [0xAA, 0xBB, 0xCC, 0xDD, 0xEE, 0x02]),
   (3, some [0xAA, 0xBB, 0xCC, 0xDD, 0xEE, 0x03]),
   (4, some [0xAA, 0xBB, 0xCC, 0xDD, 0xEE, 0x04])]

/-- `SlotMacDict.__getitem__`: a missing or `None` entry is filled with
`_generate_mac(key)` and stored; the (value, updated table) pair is
returned. -/
def slot_mac_get (t : MacTable) (k : Nat) : Bytes × MacTable :=
  match t.lookup k with
  | some (some v) => (v, t)
  | some none => (generate_mac k, alist_set t k (some (generate_mac k)))
  | none => (generate_mac k, alist_set t k (some (generate_mac k)))

/-- Modelled from the spec §3 "Slot MAC table": missing entries are
materialized by encoding the slot index big-endian into 6 bytes, modulo
2^48. -/
def spec_generate_mac (idx : Nat) : Bytes := nat_to_bytes_be 6 (idx % 2 ^ 48)

/-- C9 counterexample: slot 256 has no entry in the default MAC table, and
the code generates the all-zero MAC (256 mod 256 = 0), not the spec's
`256 mod 2^48 = 256` (bytes 00 00 00 00 01 00). -/
theorem c9_mac_counterexample :
    slot_mac_default.lookup 256 = none ∧
    (slot_mac_get slot_mac_default 256).1 = [0, 0, 0, 0, 0, 0] ∧
    (slot_mac_get slot_mac_default 256).1 ≠ spec_generate_mac 256 := by
  refine ⟨rfl, rfl, by decide⟩

/-- C9 (amended): a slot index with no (or a `None`) entry in the MAC table
is materialized on first read as the 6-byte big-endian encoding of the index
modulo 256 (`soft_slot_limit`), stored back into the table; slot 0's
generated MAC is six zero bytes. -/
theorem c9_generated_mac_mod_256 (t : MacTable) (i : Nat)
    (h : t.lookup i = none ∨ t.lookup i = some none) :
    slot_mac_get t i =
      (nat_to_bytes_be 6 (i % soft_slot_limit),
        alist_set t i (some (nat_to_bytes_be 6 (i % soft_slot_limit)))) ∧
    generate_mac 0 = [0, 0, 0, 0, 0, 0] := by
  constructor
  · rcases h with h | h <;> simp [slot_mac_get, h, generate_mac]
  · rfl

/-- Witness for C9 at slot 0 on the default table. -/
theorem c9_generated_mac_mod_256_witness :
    (slot_mac_default.lookup 0 = none ∨ slot_mac_default.lookup 0 = some none) ∧
      slot_mac_get slot_mac_default 0 =
        (nat_to_bytes_be 6 (0 % soft_slot_limit),
          alist_set slot_mac_default 0 (some (nat_to_bytes_be 6 (0 % soft_slot_limit)))) :=
  ⟨Or.inl rfl, (c9_generated_mac_mod_256 slot_mac_default 0 (Or.inl rfl)).1⟩

/-! ## Server state: net_config globals plus the `DSUProtocol` engine state
(protocols/dsu.py, protocols/dsu_packet.py, libraries/net_config.py) -/

/-- Remote addresses, kept abstract. -/
abbrev Addr := Nat

/-- A client's `registrations` structure: `{'all': 0.0, 'slots': {}, 'macs': {}}`. -/
structure Registrations where
  all : ℤ := 0
  slots : List (Nat × ℤ) := []
  macs : List (Bytes × ℤ) := []
deriving DecidableEq

/-- Per-client info kept in `net_cfg.active_clients`.  `protocol_version` is
read with `.get("protocol_version")` in send_input but never written anywhere
in the repository, so it stays `none`. -/
structure ClientInfo where
  last_seen : ℤ
  slots : List Nat := []
  registrations : Registrations := {}
  protocol_version : Option Nat := none
deriving DecidableEq

/-- Tag distinguishing the packets queued through `queue_packet`, mirroring
the `desc` strings in protocols/dsu_packet.py. -/
inductive PacketKind
  | portInfo (slot : Nat)
  | portDisconnect (slot : Nat)
  | versionResponse
  | motorResponse (slot : Nat)
  | buttonResponse (slot : Nat)
deriving DecidableEq

/-- A queued outbound packet, recorded at payload level: the DSU payload
bytes (the 16-byte header and the 4 msg_type bytes added by `build_header`
are covered by `c2_build_header_crc_roundtrip`), the float values packed
after the bytes (button responses only), and the `protocol_version` argument
handed to `build_header`. -/
structure Emission where
  kind : PacketKind
  addr : Addr
  payload : Bytes
  floats : List ℚ := []
  protocol_version : Option Nat := none
deriving DecidableEq

/-- Python set insertion (membership only matters). -/
def list_insert (l : List Nat) (x : Nat) : List Nat := if x ∈ l then l else l ++ [x]

/-- The mutable server state: the net_config module globals, the
`DSUProtocol` instance fields (`_prev_connection_types`, `_idle_slots`), and
the send queue contents. -/
structure ServerState where
  active_clients : List (Addr × ClientInfo) := []
  known_slots : List Nat := []
  controller_states : List (Nat × ControllerState) := []
  slot_mac_addresses : MacTable := slot_mac_default
  last_button_states : List (Nat × (Nat × Nat)) := []
  logged_pad_requests : List Nat := []
  prev_connection_types : List (Nat × Int) := []
  idle_slots : List Nat := []
  outbox : List Emission := []
deriving DecidableEq

/-- `net_cfg.ensure_client(addr)`: return the client info for `addr`,
creating the defaults (fresh `last_seen`, empty slots/registrations) if
absent. -/
def ensure_client (st : ServerState) (now : ℤ) (addr : Addr) :
    ServerState × ClientInfo :=
  match st.active_clients.lookup addr with
  | some info => (st, info)
  | none =>
      let info : ClientInfo := { last_seen := now }
      ({ st with active_clients := alist_set st.active_clients addr info }, info)

/-- Append a packet to the send queue (`queue_packet`). -/
def emit (st : ServerState) (e : Emission) : ServerState :=
  { st with outbox := st.outbox ++ [e] }

/-- `net_cfg.ensure_slot`: materialize the MAC table entry for `slot`. -/
def ensure_slot (t : MacTable) (slot : Nat) : MacTable := (slot_mac_get t slot).2

/-- `net_cfg.ensure_slot_count(n)`: materialize MAC entries for slot 0 and
slots 1..n. -/
def ensure_slot_count (t : MacTable) (n : Nat) : MacTable :=
  (List.range n).foldl (fun acc i => ensure_slot acc (i + 1)) (ensure_slot t 0)

/-- `ControllerStateDict.__getitem__`: a missing slot is materialized as a
default disconnected `ControllerState` (running `ensure_slot_count(key + 1)`
on the MAC table first). -/
def controller_states_get (st : ServerState) (slot : Nat) :
    ControllerState × ServerState :=
  match st.controller_states.lookup slot with
  | some cs => (cs, st)
  | none =>
      let cs : ControllerState := { connected := false }
      (cs, { st with
              slot_mac_addresses := ensure_slot_count st.slot_mac_addresses (slot + 1),
              controller_states := alist_set st.controller_states slot cs })

/-- `send_port_info` from protocols/dsu_packet.py: slots at or above
`soft_slot_limit` are only warned about; a slot with `connection_type == -1`
gets an 11-byte zero payload; otherwise the port-info payload
`slot, 2, 2, connection_type, mac, battery`. -/
def send_port_info (st : ServerState) (addr : Addr) (slot : Nat)
    (pv : Option Nat) : ServerState :=
  if soft_slot_limit ≤ slot then st
  else
    let r := controller_states_get st slot
    let state := r.1
    let st := r.2
    if state.connection_type = -1 then
      emit st { kind := .portInfo slot, addr := addr,
                payload := List.replicate 11 0, protocol_version := pv }
    else
      let m := slot_mac_get st.slot_mac_addresses slot
      let st := { st with slot_mac_addresses := m.2 }
      emit st { kind := .portInfo slot, addr := addr,
                payload := [slot, 2, 2, state.connection_type.toNat] ++ m.1 ++
                  [state.battery],
                protocol_version := pv }

/-- `send_port_disconnect` from protocols/dsu_packet.py: an 11-byte payload
`slot, 0, 0, 0, six zero MAC bytes, 0`. -/
def send_port_disconnect (st : ServerState) (addr : Addr) (slot : Nat)
    (pv : Option Nat) : ServerState :=
  if soft_slot_limit ≤ slot then st
  else emit st { kind := .portDisconnect slot, addr := addr,
                 payload := [slot, 0, 0, 0] ++ List.replicate 6 0 ++ [0],
                 protocol_version := pv }

/-- The opening of `send_input` in protocols/dsu_packet.py: a slot not yet in
`known_slots` is either skipped entirely when `not connected` (the returned
flag is false), or added to `known_slots` with a port-info broadcast to every
active client. -/
def send_input_announce (st : ServerState) (slot : Nat) (connected : Bool) :
    ServerState × Bool :=
  if slot ∈ st.known_slots then (st, true)
  else if !connected then (st, false)
  else
    let st := { st with known_slots := list_insert st.known_slots slot }
    (st.active_clients.foldl
      (fun acc (c : Addr × ClientInfo) =>
        send_port_info acc c.1 slot c.2.protocol_version) st, true)

/-- The tail of `send_input`: unknown senders are dropped; otherwise the
sender's slot set, the MAC table, the send queue and the button-state change
log are updated. -/
def send_input_enqueue (st : ServerState) (now_us : Nat) (addr : Addr)
    (a : SendInputArgs) (pv : Option Nat) : ServerState :=
  match st.active_clients.lookup addr with
  | none => st
  | some info =>
      let info := { info with slots := list_insert info.slots a.slot }
      let st := { st with active_clients := alist_set st.active_clients addr info }
      let m := slot_mac_get st.slot_mac_addresses a.slot
      let st := { st with slot_mac_addresses := m.2 }
      let msg := send_input_message m.1 now_us a
      let st := emit st { kind := .buttonResponse a.slot, addr := addr,
                          payload := msg.1, floats := msg.2,
                          protocol_version := pv }
      if st.last_button_states.lookup a.slot = some (a.buttons1, a.buttons2) then st
      else { st with last_button_states :=
              alist_set st.last_button_states a.slot (a.buttons1, a.buttons2) }

/-- The effectful part of `send_input` in protocols/dsu_packet.py, composed
from the two stages above (slots at or above `soft_slot_limit` are only
warned about). -/
def send_input (st : ServerState) (now_us : Nat) (addr : Addr)
    (a : SendInputArgs) (pv : Option Nat) : ServerState :=
  if soft_slot_limit ≤ a.slot then st
  else
    let r := send_input_announce st a.slot a.connected
    if !r.2 then r.1
    else send_input_enqueue r.1 now_us addr a pv

/-- `info = net_cfg.ensure_client(addr); info['last_seen'] = time.time()`. -/
def touch_client (st : ServerState) (now : ℤ) (addr : Addr) : ServerState :=
  let r := ensure_client st now addr
  let info := { r.2 with last_seen := now }
  { r.1 with active_clients := alist_set r.1.active_clients addr info }

/-- `ensure_client` followed by `info['last_seen'] = now` and
`info['slots'].add(slot)`, as in the motor handlers. -/
def touch_client_slot (st : ServerState) (now : ℤ) (addr : Addr) (slot : Nat) :
    ServerState :=
  let r := ensure_client st now addr
  let info := { r.2 with last_seen := now, slots := list_insert r.2.slots slot }
  { r.1 with active_clients := alist_set r.1.active_clients addr info }

/-- `handle_list_ports` from protocols/dsu_packet.py. -/
def handle_list_ports (st : ServerState) (now : ℤ) (addr : Addr) (data : Bytes)
    (pv : Option Nat) : ServerState :=
  if data.length < 24 then st
  else
    let st := touch_client st now addr
    let count := u32dec ((data.drop 20).take 4)
    let slots := (data.drop 24).take count
    slots.foldl (fun acc slot =>
      if slot ∈ acc.known_slots then send_port_info acc addr slot pv
      else send_port_disconnect acc addr slot pv) st

/-- `handle_pad_data_request` from protocols/dsu_packet.py: registration
bookkeeping only; no packet is emitted. -/
def handle_pad_data_request (st : ServerState) (now : ℤ) (addr : Addr)
    (data : Bytes) : ServerState :=
  if data.length < 28 then st
  else
    let reg_flags := data.getD 20 0
    let requested_slot := data.getD 21 0
    let mac := (data.drop 22).take 6
    let r := ensure_client st now addr
    let st := r.1
    let info := { r.2 with last_seen := now }
    let info :=
      if reg_flags = 0 then
        { info with registrations := { info.registrations with all := now } }
      else info
    let r2 :=
      if reg_flags &&& 0x01 ≠ 0 then
        let info := { info with
          registrations := { info.registrations with
            slots := alist_set info.registrations.slots requested_slot now },
          slots := list_insert info.slots requested_slot }
        let st :=
          match st.controller_states.lookup requested_slot with
          | some s =>
              if s.connected then
                { st with known_slots := list_insert st.known_slots requested_slot }
              else st
          | none => st
        let logged := list_insert st.logged_pad_requests requested_slot
        let st := { st with logged_pad_requests := logged }
        (st, info)
      else (st, info)
    let st := r2.1
    let info := r2.2
    let info :=
      if reg_flags &&& 0x02 ≠ 0 ∧ mac ≠ List.replicate 6 0 then
        { info with registrations := { info.registrations with
            macs := alist_set info.registrations.macs mac now } }
      else info
    { st with active_clients := alist_set st.active_clients addr info }

/-- `handle_motor_request` from protocols/dsu_packet.py. -/
def handle_motor_request (st : ServerState) (now : ℤ) (addr : Addr)
    (data : Bytes) (pv : Option Nat) : ServerState :=
  if data.length < 28 then st
  else
    let slot := data.getD 20 0
    if soft_slot_limit ≤ slot then st
    else
      let st := touch_client_slot st now addr slot
      match st.controller_states.lookup slot with
      | none =>
          emit st { kind := .motorResponse slot, addr := addr,
                    payload := [slot, 0, 0, 0] ++ List.replicate 6 0 ++ [0, 0],
                    protocol_version := pv }
      | some state =>
          if state.connection_type = -1 ∨ state.connected = false ∨
              slot ∉ st.known_slots then
            emit st { kind := .motorResponse slot, addr := addr,
                      payload := [slot, 0, 0, 0] ++ List.replicate 6 0 ++ [0, 0],
                      protocol_version := pv }
          else
            let m := slot_mac_get st.slot_mac_addresses slot
            let st := { st with slot_mac_addresses := m.2 }
            emit st { kind := .motorResponse slot, addr := addr,
                      payload := [slot, 2, 2, state.connection_type.toNat] ++ m.1 ++
                        [state.battery, state.motor_count],
                      protocol_version := pv }

/-- `handle_motor_command` from protocols/dsu_packet.py: update one motor's
intensity and timestamp; silent. -/
def handle_motor_command (st : ServerState) (now : ℤ) (addr : Addr)
    (data : Bytes) : ServerState :=
  if data.length < 30 then st
  else
    let slot := data.getD 20 0
    let st := touch_client_slot st now addr slot
    let motor_id := data.getD 28 0
    let intensity := data.getD 29 0
    match st.controller_states.lookup slot with
    | none => st
    | some state =>
        if state.motor_count ≤ motor_id then st
        else
          let state := { state with
            motors := state.motors.set motor_id intensity,
            motor_timestamps := state.motor_timestamps.set motor_id now }
          { st with controller_states := alist_set st.controller_states slot state }

/-- One datagram's processing in `DSUProtocol.handle_requests`
(protocols/dsu.py lines 62-93): short or wrongly-tagged datagrams, protocol
versions other than `PROTOCOL_VERSION`, bad declared lengths, CRC mismatches,
and unknown message types all fall through with no effect.  The version
request branch calls `packet.handle_version_request(addr)` without the
required `protocol_version` argument; the resulting `TypeError` is swallowed
by the blanket `except Exception` in `handle_requests` before the handler
body runs, so the state is also unchanged there. -/
def process_datagram (st : ServerState) (now : ℤ) (addr : Addr)
    (data : Bytes) : ServerState :=
  if data.length < 20 ∨ data.take 4 ≠ magicDSUC then st
  else if u16dec ((data.drop 4).take 2) ≠ PROTOCOL_VERSION then st
  else if u16dec ((data.drop 6).take 2) < 4 then st
  else if u16dec ((data.drop 6).take 2) ≠ data.length - 16 then st
  else if crc_packet (data.take 16) (data.drop 16) ≠ u32dec ((data.drop 8).take 4) then st
  else if u32dec ((data.drop 16).take 4) = DSU_version_request then st
  else if u32dec ((data.drop 16).take 4) = DSU_list_ports then
    handle_list_ports st now addr data none
  else if u32dec ((data.drop 16).take 4) = DSU_button_request then
    handle_pad_data_request st now addr data
  else if u32dec ((data.drop 16).take 4) = DSU_motor_request then
    handle_motor_request st now addr data none
  else if u32dec ((data.drop 16).take 4) = motor_command then
    handle_motor_command st now addr data
  else st

/-! ## `DSUProtocol.update_clients` (protocols/dsu.py lines 104-201) -/

/-- Registration pruning inside the first loop of `update_clients`: a truthy
expired `all` timestamp is reset to 0.0, expired per-slot and per-mac
entries are dropped. -/
def prune_registrations (now : ℤ) (r : Registrations) : Registrations :=
  { all := if r.all ≠ 0 ∧ now - r.all > DSU_timeout then 0 else r.all,
    slots := r.slots.filter (fun p => decide (now - p.2 ≤ DSU_timeout)),
    macs := r.macs.filter (fun p => decide (now - p.2 ≤ DSU_timeout)) }

/-- The first loop of `update_clients`: clients silent for longer than
`DSU_timeout` are deleted; the rest get their registrations pruned.  (Each
iteration only touches its own key, so the in-place loop over a key snapshot
is a filterMap.) -/
def gc_clients (now : ℤ) (clients : List (Addr × ClientInfo)) :
    List (Addr × ClientInfo) :=
  clients.filterMap (fun p =>
    if now - p.2.last_seen > DSU_timeout then none
    else some (p.1, { p.2 with registrations := prune_registrations now p.2.registrations }))

/-- `for client in list(net_cfg.active_clients): packet.send_port_info(client, s)`. -/
def broadcast_port_info (st : ServerState) (s : Nat) : ServerState :=
  (st.active_clients.map Prod.fst).foldl (fun acc c => send_port_info acc c s none) st

/-- `for client in list(net_cfg.active_clients): packet.send_port_disconnect(client, s)`. -/
def broadcast_port_disconnect (st : ServerState) (s : Nat) : ServerState :=
  (st.active_clients.map Prod.fst).foldl
    (fun acc c => send_port_disconnect acc c s none) st

/-- Truthiness-and-freshness test on a registration timestamp, as in
`(ts and now - ts <= net_cfg.DSU_timeout)` with `None` and `0.0` falsy. -/
def ts_fresh (now : ℤ) : Option ℤ → Bool
  | none => false
  | some t => decide (t ≠ 0 ∧ now - t ≤ DSU_timeout)

/-- The `send_input` keyword arguments `update_clients` passes for slot `s`
(every field read from the slot's state). -/
def state_to_args (s : Nat) (state : ControllerState) : SendInputArgs :=
  { slot := s, connected := state.connected, packet_num := state.packet_num,
    buttons1 := state.buttons1, buttons2 := state.buttons2, home := state.home,
    touch_button := state.touch_button, L_stick := state.L_stick,
    R_stick := state.R_stick, dpad_analog := state.dpad_analog,
    face_analog := state.face_analog, analog_R1 := state.analog_R1,
    analog_L1 := state.analog_L1, analog_R2 := state.analog_R2,
    analog_L2 := state.analog_L2, touchpad_input1 := state.touchpad_input1,
    touchpad_input2 := state.touchpad_input2,
    motion_timestamp := state.motion_timestamp,
    accelerometer := state.accelerometer, gyroscope := state.gyroscope,
    connection_type := state.connection_type.toNat, battery := state.battery }

/-- The subscriber fan-out at the end of the per-slot loop: every active
client with a fresh wildcard, per-slot, or per-mac registration gets a
button-response packet for slot `s`. -/
def fanout_input (st : ServerState) (now : ℤ) (now_us : Nat) (s : Nat)
    (state : ControllerState) (mac : Bytes) : ServerState :=
  (st.active_clients.map Prod.fst).foldl (fun acc addr =>
    let r := ensure_client acc now addr
    let regs := r.2.registrations
    if ts_fresh now (some regs.all) || ts_fresh now (regs.slots.lookup s) ||
        ts_fresh now (regs.macs.lookup mac) then
      send_input r.1 now_us addr (state_to_args s state) none
    else r.1) st

/-- The `connection_type != prev_type` branch of the per-slot loop: record
the new type; on the -1 sentinel mark the slot disconnected, drop it from
`known_slots` and broadcast a port-disconnect, otherwise add it to
`known_slots` and broadcast a port-info.  Returns the live slot state. -/
def update_slot_transition (st : ServerState) (s : Nat) (prev_type : Int)
    (state1 : ControllerState) : ServerState × ControllerState :=
  if state1.connection_type ≠ prev_type then
    let prevs := alist_set st.prev_connection_types s state1.connection_type
    let st := { st with prev_connection_types := prevs }
    if state1.connection_type = -1 then
      let state2 := { state1 with connected := false }
      let st := { st with
        controller_states := alist_set st.controller_states s state2,
        known_slots := st.known_slots.erase s }
      (broadcast_port_disconnect st s, state2)
    else
      let st := { st with known_slots := list_insert st.known_slots s }
      (broadcast_port_info st s, state1)
  else (st, state1)

/-- The false→true connection transition broadcast of the per-slot loop. -/
def update_slot_newly_connected (st : ServerState) (s : Nat)
    (prev_connected : Bool) (state2 : ControllerState) : ServerState :=
  if state2.connection_type ≠ -1 ∧ prev_connected = false ∧
      state2.connected = true ∧ s ∉ st.known_slots then
    broadcast_port_info { st with known_slots := list_insert st.known_slots s } s
  else st

/-- The subscriber fan-out guard of the per-slot loop: slots with the -1
sentinel emit nothing. -/
def update_slot_fanout (st : ServerState) (now : ℤ) (now_us : Nat) (s : Nat)
    (state2 : ControllerState) : ServerState :=
  if state2.connection_type ≠ -1 then
    let m := slot_mac_get st.slot_mac_addresses s
    fanout_input { st with slot_mac_addresses := m.2 } now now_us s state2 m.1
  else st

/-- The per-slot body of the second loop of `update_clients`.  Note
`prev_type` falls back to the slot's current `connection_type` when
`_prev_connection_types` has no entry, and the map is only written inside the
`connection_type != prev_type` branch. -/
def update_slot (now : ℤ) (now_us : Nat) (st : ServerState) (s : Nat) : ServerState :=
  match st.controller_states.lookup s with
  | none => st
  | some state0 =>
      let prev_type := (st.prev_connection_types.lookup s).getD state0.connection_type
      let state1 :=
        if s ∈ st.idle_slots then { state0 with connected := true }
        else state0.update_connection stick_deadzone
      let st := { st with controller_states := alist_set st.controller_states s state1 }
      let r := update_slot_transition st s prev_type state1
      let st := update_slot_newly_connected r.1 s state0.connected r.2
      update_slot_fanout st now now_us s r.2

/-- The final loop of `update_clients`: every slot's `packet_num` is
incremented modulo 2^32 and motors whose timestamp is older than
`DSU_timeout` are zeroed. -/
def finish_slot (now : ℤ) (state0 : ControllerState) : ControllerState :=
  let state := { state0 with packet_num := (state0.packet_num + 1) % 2 ^ 32 }
  let motors := (List.range state.motor_count).foldl
    (fun ms i =>
      if now - state.motor_timestamps.getD i 0 > DSU_timeout ∧ ms.getD i 0 ≠ 0 then
        ms.set i 0
      else ms) state.motors
  { state with motors := motors }

/-- The final loop applied to the whole slot map. -/
def finish_pass (now : ℤ) (st : ServerState) : ServerState :=
  { st with controller_states :=
      st.controller_states.map (fun p => (p.1, finish_slot now p.2)) }

/-- `DSUProtocol.update_clients`: garbage-collect clients and registrations,
run the per-slot visibility/fan-out loop over a snapshot of the slot keys,
then increment every `packet_num` and zero stale motors. -/
def update_clients (st : ServerState) (now : ℤ) (now_us : Nat) : ServerState :=
  let st := { st with active_clients := gc_clients now st.active_clients }
  let st := (st.controller_states.map Prod.fst).foldl (update_slot now now_us) st
  finish_pass now st

/-! ## Association-list lemmas and packet_num bookkeeping -/

lemma lookup_alist_set_self {α : Type} (l : List (Nat × α)) (k : Nat) (v : α) :
    (alist_set l k v).lookup k = some v := by
  induction l with
  | nil => simp [alist_set, List.lookup]
  | cons p t ih =>
      obtain ⟨a, b⟩ := p
      by_cases h : a = k
      · subst h
        simp [alist_set, List.lookup]
      · have hke : (k == a) = false := beq_eq_false_iff_ne.mpr (Ne.symm h)
        simp [alist_set, h, List.lookup, hke, ih]

lemma lookup_alist_set_ne {α : Type} (l : List (Nat × α)) (k k' : Nat) (v : α)
    (h : k' ≠ k) : (alist_set l k v).lookup k' = l.lookup k' := by
  have hkk : (k' == k) = false := beq_eq_false_iff_ne.mpr h
  induction l with
  | nil => simp [alist_set, List.lookup, hkk]
  | cons p t ih =>
      obtain ⟨a, b⟩ := p
      by_cases hak : a = k
      · subst hak
        simp [alist_set, List.lookup, hkk]
      · simp only [alist_set, if_neg hak, List.lookup]
        by_cases hk' : k' = a
        · simp [hk']
        · have hka : (k' == a) = false := beq_eq_false_iff_ne.mpr hk'
          simp [hka, ih]

/-- `packet_num` preservation between two slot maps: every slot present in
the first is present in the second with the same `packet_num`. -/
def pn_preserved (a b : List (Nat × ControllerState)) : Prop :=
  ∀ s cs, a.lookup s = some cs →
    ∃ cs', b.lookup s = some cs' ∧ cs'.packet_num = cs.packet_num

lemma pn_preserved_refl (a : List (Nat × ControllerState)) : pn_preserved a a :=
  fun _ cs h => ⟨cs, h, rfl⟩

lemma pn_preserved_of_eq {a b : List (Nat × ControllerState)} (h : a = b) :
    pn_preserved a b := h ▸ pn_preserved_refl a

lemma pn_preserved_trans {a b c : List (Nat × ControllerState)}
    (h1 : pn_preserved a b) (h2 : pn_preserved b c) : pn_preserved a c := by
  intro s cs h
  obtain ⟨cs1, hb, hpn1⟩ := h1 s cs h
  obtain ⟨cs2, hc, hpn2⟩ := h2 s cs1 hb
  exact ⟨cs2, hc, hpn2.trans hpn1⟩

lemma pn_preserved_set_existing (l : List (Nat × ControllerState)) (k : Nat)
    (v c0 : ControllerState) (hl : l.lookup k = some c0)
    (hpn : v.packet_num = c0.packet_num) : pn_preserved l (alist_set l k v) := by
  intro s cs h
  by_cases hs : s = k
  · subst hs
    rw [hl] at h
    obtain rfl : c0 = cs := by injection h
    exact ⟨v, lookup_alist_set_self _ _ _, hpn⟩
  · exact ⟨cs, by rw [lookup_alist_set_ne _ _ _ _ hs]; exact h, rfl⟩

lemma pn_preserved_set_new (l : List (Nat × ControllerState)) (k : Nat)
    (v : ControllerState) (hl : l.lookup k = none) :
    pn_preserved l (alist_set l k v) := by
  intro s cs h
  have hs : s ≠ k := by
    intro e
    subst e
    rw [h] at hl
    exact Option.noConfusion hl
  exact ⟨cs, by rw [lookup_alist_set_ne _ _ _ _ hs]; exact h, rfl⟩

lemma lookup_map_value {α β : Type} (l : List (Nat × α)) (f : α → β) (s : Nat) :
    (l.map (fun p => (p.1, f p.2))).lookup s = (l.lookup s).map f := by
  induction l with
  | nil => simp [List.lookup]
  | cons p t ih =>
      obtain ⟨a, b⟩ := p
      by_cases h : s = a
      · simp [List.lookup, h]
      · have hsa : (s == a) = false := beq_eq_false_iff_ne.mpr h
        simp [List.lookup, hsa, ih]

lemma pn_preserved_foldl {β : Type} (step : ServerState → β → ServerState)
    (hstep : ∀ st b, pn_preserved st.controller_states (step st b).controller_states)
    (l : List β) : ∀ st : ServerState,
    pn_preserved st.controller_states ((l.foldl step st).controller_states) := by
  induction l with
  | nil => intro st; exact pn_preserved_refl _
  | cons b t ih =>
      intro st
      exact pn_preserved_trans (hstep st b) (ih (step st b))

lemma emit_states (st : ServerState) (e : Emission) :
    (emit st e).controller_states = st.controller_states := rfl

lemma ensure_client_states (st : ServerState) (now : ℤ) (addr : Addr) :
    (ensure_client st now addr).1.controller_states = st.controller_states := by
  unfold ensure_client
  cases st.active_clients.lookup addr <;> rfl

lemma cs_get_pn (st : ServerState) (slot : Nat) :
    pn_preserved st.controller_states
      ((controller_states_get st slot).2.controller_states) := by
  unfold controller_states_get
  cases h : st.controller_states.lookup slot with
  | some cs => exact pn_preserved_refl _
  | none => exact pn_preserved_set_new _ _ _ h

lemma send_port_info_pn (st : ServerState) (addr : Addr) (slot : Nat)
    (pv : Option Nat) :
    pn_preserved st.controller_states
      ((send_port_info st addr slot pv).controller_states) := by
  unfold send_port_info
  by_cases h : soft_slot_limit ≤ slot
  · simp only [if_pos h]
    exact pn_preserved_refl _
  · simp only [if_neg h]
    by_cases h2 : (controller_states_get st slot).1.connection_type = -1 <;>
      simp only [h2, if_pos, if_neg, if_true, if_false, ite_true, ite_false,
        emit_states] <;>
      exact cs_get_pn st slot

lemma send_port_disconnect_states (st : ServerState) (addr : Addr) (slot : Nat)
    (pv : Option Nat) :
    (send_port_disconnect st addr slot pv).controller_states =
      st.controller_states := by
  unfold send_port_disconnect
  by_cases h : soft_slot_limit ≤ slot <;> simp [h, emit_states]

lemma foldl_states_eq {β : Type} (step : ServerState → β → ServerState)
    (hstep : ∀ st b, (step st b).controller_states = st.controller_states)
    (l : List β) : ∀ st : ServerState,
    (l.foldl step st).controller_states = st.controller_states := by
  induction l with
  | nil => intro st; rfl
  | cons b t ih => intro st; rw [List.foldl_cons, ih, hstep]

lemma send_input_enqueue_states (st : ServerState) (now_us : Nat) (addr : Addr)
    (a : SendInputArgs) (pv : Option Nat) :
    (send_input_enqueue st now_us addr a pv).controller_states =
      st.controller_states := by
  unfold send_input_enqueue
  split
  · rfl
  · dsimp only
    split <;> rfl

lemma send_input_announce_pn (st : ServerState) (slot : Nat) (connected : Bool) :
    pn_preserved st.controller_states
      ((send_input_announce st slot connected).1.controller_states) := by
  unfold send_input_announce
  by_cases h1 : slot ∈ st.known_slots
  · simp only [if_pos h1]
    exact pn_preserved_refl _
  simp only [if_neg h1]
  cases connected with
  | false => exact pn_preserved_refl _
  | true =>
      simp only [Bool.not_true, Bool.false_eq_true, if_false, ite_false]
      exact pn_preserved_foldl
        (fun acc (c : Addr × ClientInfo) =>
          send_port_info acc c.1 slot c.2.protocol_version)
        (fun st' b => send_port_info_pn st' b.1 slot b.2.protocol_version)
        ({ st with known_slots := list_insert st.known_slots slot } :
          ServerState).active_clients
        { st with known_slots := list_insert st.known_slots slot }

lemma send_input_pn (st : ServerState) (now_us : Nat) (addr : Addr)
    (a : SendInputArgs) (pv : Option Nat) :
    pn_preserved st.controller_states
      ((send_input st now_us addr a pv).controller_states) := by
  unfold send_input
  by_cases h1 : soft_slot_limit ≤ a.slot
  · simp only [if_pos h1]
    exact pn_preserved_refl _
  simp only [if_neg h1]
  split
  · exact send_input_announce_pn st a.slot a.connected
  · rw [send_input_enqueue_states]
    exact send_input_announce_pn st a.slot a.connected

lemma touch_client_states (st : ServerState) (now : ℤ) (addr : Addr) :
    (touch_client st now addr).controller_states = st.controller_states := by
  simp [touch_client, ensure_client_states]

lemma touch_client_slot_states (st : ServerState) (now : ℤ) (addr : Addr)
    (slot : Nat) :
    (touch_client_slot st now addr slot).controller_states =
      st.controller_states := by
  simp [touch_client_slot, ensure_client_states]

lemma handle_list_ports_pn (st : ServerState) (now : ℤ) (addr : Addr)
    (data : Bytes) (pv : Option Nat) :
    pn_preserved st.controller_states
      ((handle_list_ports st now addr data pv).controller_states) := by
  unfold handle_list_ports
  split
  · exact pn_preserved_refl _
  · dsimp only
    have h := pn_preserved_foldl
      (fun acc slot =>
        if slot ∈ acc.known_slots then send_port_info acc addr slot pv
        else send_port_disconnect acc addr slot pv)
      (fun st' b => by
        by_cases hb : b ∈ st'.known_slots
        · simpa [hb] using send_port_info_pn st' addr b pv
        · simpa [hb] using
            pn_preserved_of_eq (send_port_disconnect_states st' addr b pv).symm)
      ((data.drop 24).take (u32dec ((data.drop 20).take 4)))
      (touch_client st now addr)
    rw [touch_client_states] at h
    exact h

lemma handle_pad_data_request_states (st : ServerState) (now : ℤ) (addr : Addr)
    (data : Bytes) :
    (handle_pad_data_request st now addr data).controller_states =
      st.controller_states := by
  unfold handle_pad_data_request
  split
  · rfl
  · dsimp only
    repeat' split
    all_goals simp [ensure_client_states]

lemma handle_motor_request_states (st : ServerState) (now : ℤ) (addr : Addr)
    (data : Bytes) (pv : Option Nat) :
    (handle_motor_request st now addr data pv).controller_states =
      st.controller_states := by
  unfold handle_motor_request
  split
  · rfl
  · dsimp only
    repeat' split
    all_goals simp [emit_states, touch_client_slot_states, ensure_client_states]

lemma handle_motor_command_pn (st : ServerState) (now : ℤ) (addr : Addr)
    (data : Bytes) :
    pn_preserved st.controller_states
      ((handle_motor_command st now addr data).controller_states) := by
  unfold handle_motor_command
  split
  · exact pn_preserved_refl _
  · dsimp only
    split
    · exact pn_preserved_of_eq (touch_client_slot_states _ _ _ _).symm
    · rename_i state heq
      split
      · exact pn_preserved_of_eq (touch_client_slot_states _ _ _ _).symm
      · rw [touch_client_slot_states] at heq
        show pn_preserved st.controller_states
          (alist_set
            (touch_client_slot st now addr (data.getD 20 0)).controller_states
            (data.getD 20 0)
            { state with
              motors := state.motors.set (data.getD 28 0) (data.getD 29 0),
              motor_timestamps := state.motor_timestamps.set (data.getD 28 0) now })
        rw [touch_client_slot_states]
        exact pn_preserved_set_existing _ _ _ _ heq rfl

lemma process_datagram_pn (st : ServerState) (now : ℤ) (addr : Addr)
    (data : Bytes) :
    pn_preserved st.controller_states
      ((process_datagram st now addr data).controller_states) := by
  unfold process_datagram
  split
  · exact pn_preserved_refl _
  split
  · exact pn_preserved_refl _
  split
  · exact pn_preserved_refl _
  split
  · exact pn_preserved_refl _
  split
  · exact pn_preserved_refl _
  split
  · exact pn_preserved_refl _
  split
  · exact handle_list_ports_pn st now addr data none
  split
  · exact pn_preserved_of_eq (handle_pad_data_request_states st now addr data).symm
  split
  · exact pn_preserved_of_eq (handle_motor_request_states st now addr data none).symm
  split
  · exact handle_motor_command_pn st now addr data
  exact pn_preserved_refl _

lemma broadcast_port_info_pn (st : ServerState) (s : Nat) :
    pn_preserved st.controller_states
      ((broadcast_port_info st s).controller_states) := by
  unfold broadcast_port_info
  exact pn_preserved_foldl (fun acc c => send_port_info acc c s none)
    (fun st' b => send_port_info_pn st' b s none) _ st

lemma broadcast_port_disconnect_states (st : ServerState) (s : Nat) :
    (broadcast_port_disconnect st s).controller_states = st.controller_states := by
  unfold broadcast_port_disconnect
  exact foldl_states_eq (fun acc c => send_port_disconnect acc c s none)
    (fun st' b => send_port_disconnect_states st' b s none) _ st

lemma fanout_input_pn (st : ServerState) (now : ℤ) (now_us : Nat) (s : Nat)
    (state : ControllerState) (mac : Bytes) :
    pn_preserved st.controller_states
      ((fanout_input st now now_us s state mac).controller_states) := by
  unfold fanout_input
  refine pn_preserved_foldl _ ?_ _ st
  intro st' b
  dsimp only
  split
  · exact pn_preserved_trans
      (pn_preserved_of_eq (ensure_client_states st' now b).symm)
      (send_input_pn _ now_us b (state_to_args s state) none)
  · exact pn_preserved_of_eq (ensure_client_states st' now b).symm

lemma update_slot_transition_pn (st : ServerState) (s : Nat) (prev_type : Int)
    (state1 c0 : ControllerState)
    (h : st.controller_states.lookup s = some c0)
    (hpn : state1.packet_num = c0.packet_num) :
    pn_preserved st.controller_states
      ((update_slot_transition st s prev_type state1).1.controller_states) := by
  unfold update_slot_transition
  split
  · dsimp only
    split
    · rw [broadcast_port_disconnect_states]
      show pn_preserved st.controller_states
        (alist_set st.controller_states s { state1 with connected := false })
      exact pn_preserved_set_existing _ _ _ _ h hpn
    · have hmid := broadcast_port_info_pn
        { st with
            prev_connection_types :=
              alist_set st.prev_connection_types s state1.connection_type,
            known_slots := list_insert st.known_slots s } s
      exact hmid
  · exact pn_preserved_refl _

lemma update_slot_newly_connected_pn (st : ServerState) (s : Nat)
    (prev_connected : Bool) (state2 : ControllerState) :
    pn_preserved st.controller_states
      ((update_slot_newly_connected st s prev_connected state2).controller_states) := by
  unfold update_slot_newly_connected
  split
  · exact broadcast_port_info_pn
      { st with known_slots := list_insert st.known_slots s } s
  · exact pn_preserved_refl _

lemma update_slot_fanout_pn (st : ServerState) (now : ℤ) (now_us : Nat) (s : Nat)
    (state2 : ControllerState) :
    pn_preserved st.controller_states
      ((update_slot_fanout st now now_us s state2).controller_states) := by
  unfold update_slot_fanout
  split
  · exact fanout_input_pn
      { st with slot_mac_addresses := (slot_mac_get st.slot_mac_addresses s).2 }
      now now_us s state2 (slot_mac_get st.slot_mac_addresses s).1
  · exact pn_preserved_refl _

lemma update_slot_pn (now : ℤ) (now_us : Nat) (st : ServerState) (s : Nat) :
    pn_preserved st.controller_states
      ((update_slot now now_us st s).controller_states) := by
  unfold update_slot
  split
  · exact pn_preserved_refl _
  · rename_i state0 heq
    dsimp only
    have hpn1 :
        (if s ∈ st.idle_slots then { state0 with connected := true }
          else state0.update_connection stick_deadzone).packet_num =
          state0.packet_num := by
      split <;> rfl
    generalize hq : (if s ∈ st.idle_slots then { state0 with connected := true }
      else state0.update_connection stick_deadzone) = state1
    rw [hq] at hpn1
    generalize hstA : ({ st with
      controller_states := alist_set st.controller_states s state1 } : ServerState) = stA
    generalize htr : update_slot_transition stA s
      ((st.prev_connection_types.lookup s).getD state0.connection_type) state1 = r
    have hA : pn_preserved st.controller_states stA.controller_states := by
      rw [← hstA]
      exact pn_preserved_set_existing st.controller_states s state1 state0 heq hpn1
    have hl : stA.controller_states.lookup s = some state1 := by
      rw [← hstA]
      exact lookup_alist_set_self _ _ _
    have hB : pn_preserved stA.controller_states r.1.controller_states := by
      rw [← htr]
      exact update_slot_transition_pn stA s _ state1 state1 hl rfl
    have hC := update_slot_newly_connected_pn r.1 s state0.connected r.2
    have hD := update_slot_fanout_pn
      (update_slot_newly_connected r.1 s state0.connected r.2) now now_us s r.2
    exact pn_preserved_trans hA (pn_preserved_trans hB (pn_preserved_trans hC hD))

lemma finish_pass_lookup (now : ℤ) (st : ServerState) (s : Nat) :
    (finish_pass now st).controller_states.lookup s =
      (st.controller_states.lookup s).map (finish_slot now) := by
  unfold finish_pass
  exact lookup_map_value _ _ _

lemma finish_slot_pn (now : ℤ) (cs : ControllerState) :
    (finish_slot now cs).packet_num = (cs.packet_num + 1) % 2 ^ 32 := rfl

/-- C3: a received datagram that is shorter than 20 bytes, lacks the `DSUC`
magic, declares a length under 4, declares a length different from
`len(buf) - 16`, or fails the CRC check is dropped silently: no handler runs,
nothing is queued, and the whole server state — client registry included — is
unchanged. -/
theorem c3_malformed_dropped (st : ServerState) (now : ℤ) (addr : Addr)
    (data : Bytes)
    (h : data.length < 20 ∨ data.take 4 ≠ magicDSUC ∨
        u16dec ((data.drop 6).take 2) < 4 ∨
        u16dec ((data.drop 6).take 2) ≠ data.length - 16 ∨
        crc_packet (data.take 16) (data.drop 16) ≠ u32dec ((data.drop 8).take 4)) :
    process_datagram st now addr data = st := by
  unfold process_datagram
  by_cases h1 : data.length < 20 ∨ data.take 4 ≠ magicDSUC
  · rw [if_pos h1]
  rw [if_neg h1]
  by_cases h2 : u16dec ((data.drop 4).take 2) ≠ PROTOCOL_VERSION
  · rw [if_pos h2]
  rw [if_neg h2]
  by_cases h3 : u16dec ((data.drop 6).take 2) < 4
  · rw [if_pos h3]
  rw [if_neg h3]
  by_cases h4 : u16dec ((data.drop 6).take 2) ≠ data.length - 16
  · rw [if_pos h4]
  rw [if_neg h4]
  by_cases h5 : crc_packet (data.take 16) (data.drop 16) ≠ u32dec ((data.drop 8).take 4)
  · rw [if_pos h5]
  exfalso
  rcases h with hx | hx | hx | hx | hx
  · exact h1 (Or.inl hx)
  · exact h1 (Or.inr hx)
  · exact h3 hx
  · exact h4 hx
  · exact h5 hx

/-- Witness for C3 at the empty datagram. -/
theorem c3_malformed_dropped_witness :
    ([] : Bytes).length < 20 ∧ process_datagram {} 0 0 [] = {} :=
  ⟨by decide, c3_malformed_dropped {} 0 0 [] (Or.inl (by decide))⟩

/-- C10: a datagram whose header carries a protocol_version different from
1001 is silently dropped by `handle_requests` even when its length, magic,
declared length and CRC are all valid — no handler runs and the server state
is unchanged. -/
theorem c10_version_mismatch_dropped (st : ServerState) (now : ℤ) (addr : Addr)
    (data : Bytes)
    (hlen : 20 ≤ data.length) (hmagic : data.take 4 = magicDSUC)
    (hmin : 4 ≤ u16dec ((data.drop 6).take 2))
    (hdecl : u16dec ((data.drop 6).take 2) = data.length - 16)
    (hcrc : crc_packet (data.take 16) (data.drop 16) = u32dec ((data.drop 8).take 4))
    (hver : u16dec ((data.drop 4).take 2) ≠ PROTOCOL_VERSION) :
    process_datagram st now addr data = st := by
  unfold process_datagram
  have h1 : ¬ (data.length < 20 ∨ data.take 4 ≠ magicDSUC) := by
    push_neg
    exact ⟨hlen, hmagic⟩
  rw [if_neg h1, if_pos hver]

set_option maxRecDepth 4000 in
set_option maxHeartbeats 1000000 in
/-- Witness for C10: a fully valid version request framed by the client-side
builder but carrying protocol_version 1000. -/
theorem c10_version_mismatch_dropped_witness :
    u16dec (((build_client_packet DSU_version_request [] (some 1000)).drop 4).take 2) ≠
        PROTOCOL_VERSION ∧
      process_datagram {} 0 0 (build_client_packet DSU_version_request [] (some 1000)) =
        {} :=
  ⟨by decide,
    c10_version_mismatch_dropped {} 0 0 _ (by decide) (by decide) (by decide)
      (by decide) (by decide) (by decide)⟩

/-- C4: `packet_num` is incremented exactly once per `update_clients`
reconciliation pass for every slot — independently of the client registry,
subscriptions and whether any packet was emitted — wrapping modulo 2^32, and
no datagram processed by `handle_requests` ever changes any slot's
`packet_num`. -/
theorem c4_packet_num_once_per_pass (st : ServerState) (now : ℤ) (now_us : Nat)
    (s : Nat) (cs : ControllerState)
    (h : st.controller_states.lookup s = some cs) :
    ((update_clients st now now_us).controller_states.lookup s).map
        (fun c => c.packet_num) = some ((cs.packet_num + 1) % 2 ^ 32) ∧
    ∀ (addr : Addr) (data : Bytes),
      ((process_datagram st now addr data).controller_states.lookup s).map
          (fun c => c.packet_num) = some cs.packet_num := by
  constructor
  · unfold update_clients
    dsimp only
    have hfold := pn_preserved_foldl (update_slot now now_us)
      (fun st' b => update_slot_pn now now_us st' b)
      (({ st with active_clients := gc_clients now st.active_clients } :
        ServerState).controller_states.map Prod.fst)
      { st with active_clients := gc_clients now st.active_clients }
    obtain ⟨cs1, hl1, hpn1⟩ := hfold s cs h
    rw [finish_pass_lookup, hl1]
    simp [finish_slot_pn, hpn1]
  · intro addr data
    obtain ⟨cs1, hl1, hpn1⟩ := process_datagram_pn st now addr data s cs h
    rw [hl1]
    simp [hpn1]

/-- Witness for C4 at a one-slot server with the default slot state. -/
theorem c4_packet_num_once_per_pass_witness :
    ({ controller_states := [(0, {})] } : ServerState).controller_states.lookup 0 =
        some ({} : ControllerState) ∧
      ((update_clients { controller_states := [(0, {})] } 0 0).controller_states.lookup
            0).map (fun c => c.packet_num) =
        some ((({} : ControllerState).packet_num + 1) % 2 ^ 32) :=
  ⟨rfl, (c4_packet_num_once_per_pass { controller_states := [(0, {})] } 0 0 0 {} rfl).1⟩

/-! C5 fixtures: one registered, subscribed client (address 0) and slot 2
whose `connection_type` was set to -1 by a producer before the pass.  The
`DSUProtocol` instance starts with `_prev_connection_types = {}` and only
writes that map inside the transition branch, whose test compares against a
default equal to the current value — so with the empty map the branch can
never fire.  server.py seeds the equivalent map with the slots' initial
connection types (line 173), which is the behaviour the spec describes; the
second half of the theorem evaluates the same pass with the seeded map. -/

def c5_client : ClientInfo := { last_seen := 1, registrations := { all := 1 } }

def c5_state : ControllerState := { connected := true, connection_type := -1 }

def c5_server (prevs : List (Nat × Int)) : ServerState :=
  { active_clients := [(0, c5_client)],
    known_slots := [2],
    controller_states := [(2, c5_state)],
    prev_connection_types := prevs }

/-- C5 (code evaluated at the failing input): with `DSUProtocol`'s initial
empty `_prev_connection_types`, the reconciliation pass after slot 2's
`connection_type` was set to -1 emits nothing at all — no port-disconnect to
the registered client — and leaves the slot in `known_slots`; seeding the map
with the slot's previous type 2, as server.py does, makes the same pass emit
the port-disconnect payload `[2, 0, 0, 0, zeros, 0]` to the client, drop the
slot from `known_slots`, and emit no button-response for it. -/
theorem c5_disconnect_never_broadcast :
    (update_clients (c5_server []) 1 0).outbox = [] ∧
    (update_clients (c5_server []) 1 0).known_slots = [2] ∧
    (update_clients (c5_server [(2, 2)]) 1 0).outbox =
      [{ kind := .portDisconnect 2, addr := 0,
         payload := [2, 0, 0, 0, 0, 0, 0, 0, 0, 0, 0] }] ∧
    (update_clients (c5_server [(2, 2)]) 1 0).known_slots = [] := by
  refine ⟨?_, ?_, ?_, ?_⟩ <;> decide

end DSUwU
